import Mathlib

/-!
Verification development for the event-planner dashboard
(`streamlit_app.py`): a shallow embedding of its data model and the
arithmetic / table operations, together with theorems settling the
specification claims.

Modelling conventions:
* Spreadsheet numbers are modelled as rationals (`ℚ`).  A cell is either
  a number, a missing value (`null`, covering Python `None` and pandas
  `NaN`), or `nonnum`: a value that `pd.to_numeric` cannot parse, such
  as the string `"abc"`.  Numeric strings such as `"5"` are parsed by
  `pd.to_numeric`, so they are represented directly as `num` cells.
* Python exceptions are modelled with `Except PyErr`.
* A worksheet table is a list of column names together with rows of
  cells, each row parallel to the column list.
-/

set_option autoImplicit false

namespace EventPlanner

/-- Python exception kinds that the embedded code can raise. -/
inductive PyErr where
  | typeError
  | valueError
  | attributeError
  | nan
  deriving DecidableEq, Repr

/-- One spreadsheet cell. -/
inductive Cell where
  | num (q : ℚ)
  | null
  | nonnum
  deriving DecidableEq, Repr

/-- The numeric value of a cell, `0` for anything that is not a number.
Used in specification statements (and after a coercion step, where the
source's `fillna(0)` / `skipna` semantics make non-numbers count as 0). -/
def Cell.val : Cell → ℚ
  | .num q => q
  | _ => 0

/-- Whether a cell holds a number. -/
def Cell.isNum : Cell → Bool
  | .num _ => true
  | _ => false

/-- `pd.to_numeric(x, errors=coerce)`: numbers pass through, anything
unparseable (or missing) becomes `NaN`, modelled as `null`. -/
def toNumericCoerce : Cell → Cell
  | .num q => .num q
  | .null => .null
  | .nonnum => .null

/-- `x > 0` in Python after a `to_numeric` coercion: true only for a
number greater than zero (`NaN > 0` is false). -/
def numPos : Cell → Bool
  | .num q => decide (0 < q)
  | _ => false

/-- `pd.to_numeric(col, errors=coerce).sum()` (also used with an explicit
`.fillna(0)` in the source, which is equivalent): every non-numeric or
missing cell contributes `0`, and the empty column sums to `0`. -/
def sumCoerced (cells : List Cell) : ℚ :=
  (cells.map fun c => (toNumericCoerce c).val).sum

/-- `series.sum()` on a raw (uncoerced) object column, as done on the
Budget page: missing cells (`NaN`) are skipped, but a non-numeric cell
makes the reduction fail — pandas raises `TypeError` when adding a number
and a string, and an all-string column concatenates to a string that the
caller's numeric formatting then rejects.  Either way no number is
produced, which we model as an error. -/
def pandasRawSum : List Cell → Except PyErr ℚ
  | [] => .ok 0
  | .num q :: cs => do
    let s ← pandasRawSum cs
    pure (q + s)
  | .null :: cs => pandasRawSum cs
  | .nonnum :: _ => .error .typeError

/-- Python `float(x)`: a number is itself; `float` of an unparseable
string raises `ValueError`; `float` of a missing value yields `NaN`,
which `ℚ` cannot represent, so we flag it as an error (the claims only
exercise numeric cells here). -/
def cellFloat : Cell → Except PyErr ℚ
  | .num q => .ok q
  | .null => .error .nan
  | .nonnum => .error .valueError

/-- A worksheet table: named columns and rows of cells, each row parallel
to the column list. -/
structure Table where
  cols : List String
  rows : List (List Cell)
  deriving DecidableEq, Repr

/-- Column access `df[name]`: the cells of the named column, row by row.
(The source only accesses columns that `load_data` has guaranteed to
exist; for a missing name we return the empty column.) -/
def Table.col (t : Table) (name : String) : List Cell :=
  match t.cols.findIdx? (fun c => c == name) with
  | some i => t.rows.map fun r => r.getD i Cell.null
  | none => []

/-- The state of one worksheet as seen through the gateway: either the
read raises (missing tab) or it yields a table. -/
inductive Sheet where
  | unreachable
  | reachable (t : Table)
  deriving DecidableEq, Repr

/-- One step of the required-column backfill in `load_data`:
`if col not in df.columns: df[col] = None` — a missing column is appended
with a null value in every row; a present column leaves the frame
untouched. -/
def addMissing (t : Table) (c : String) : Table :=
  if c ∈ t.cols then t
  else ⟨t.cols ++ [c], t.rows.map fun r => r ++ [Cell.null]⟩

/-- `load_data(tab_name, required_columns)`: an unreachable worksheet
yields `none` (the source returns `None` to trigger the setup guide); an
empty frame is replaced by an empty frame whose schema is exactly
`required_columns`; otherwise every missing required column is appended
with nulls. -/
def load_data (s : Sheet) (required_columns : List String) : Option Table :=
  match s with
  | .unreachable => none
  | .reachable df =>
    if df.rows = [] then some ⟨required_columns, []⟩
    else some (required_columns.foldl addMissing df)

/-- `save_data(tab_name, df)`: `conn.update` overwrites the whole
worksheet with the given frame. -/
def save_data (df : Table) : Sheet :=
  .reachable df

/-! ## Budget page (lines 79-153) -/

/-- A row of the `Budget_Config` table as edited on the Budget page:
columns `Category`, `Limit`, `Manual_Cost` (guaranteed present by
`load_data`). -/
structure BudgetRow where
  category : String
  limit : Cell
  manualCost : Cell
  deriving DecidableEq, Repr

/-- `real_food_cost = df_food[Total].sum() if not df_food.empty else 0.0`
(line 92) — a raw, uncoerced pandas sum over the `Total` column. -/
def real_food_cost (df_food : Table) : Except PyErr ℚ :=
  if df_food.rows = [] then .ok 0 else pandasRawSum (df_food.col ("Total"))

/-- `real_decor_cost = df_decor[Cost].sum() if not df_decor.empty else 0.0`
(line 93). -/
def real_decor_cost (df_decor : Table) : Except PyErr ℚ :=
  if df_decor.rows = [] then .ok 0 else pandasRawSum (df_decor.col ("Cost"))

/-- `get_limit(cat)` (lines 120-122): filter the edited budget table to
the rows whose `Category` equals `cat` exactly, take `float` of the first
row's `Limit`, or `0.0` when no row matches. `rows.find?` is the first
row of the filtered frame (`.iloc[0]`). -/
def get_limit (rows : List BudgetRow) (cat : String) : Except PyErr ℚ :=
  match rows.find? (fun r => r.category == cat) with
  | some r => cellFloat r.limit
  | none => .ok 0

/-- `get_manual(cat)` (lines 124-126): same lookup on `Manual_Cost`. -/
def get_manual (rows : List BudgetRow) (cat : String) : Except PyErr ℚ :=
  match rows.find? (fun r => r.category == cat) with
  | some r => cellFloat r.manualCost
  | none => .ok 0

/-- The ratio fed to the progress bar in `show_bar` (line 130):
`min(current / limit, 1.0) if limit > 0 else 0`. -/
def show_bar_ratio (current limit : ℚ) : ℚ :=
  if 0 < limit then min (current / limit) 1 else 0

/-- `total_limit = edited_budget[Limit].sum()` (line 147) — a raw pandas
sum over the whole `Limit` column. -/
def total_limit (rows : List BudgetRow) : Except PyErr ℚ :=
  pandasRawSum (rows.map fun r => r.limit)

/-- `total_spent` (line 150): the linked food and decor costs plus the
manual costs of exactly the categories `Venue`, `Games` and
`Invitations` (`venue_cost` is `get_manual("Venue")` from line 141). -/
def total_spent (rf rd : ℚ) (rows : List BudgetRow) : Except PyErr ℚ := do
  let venue_cost ← get_manual rows ("Venue")
  let games_cost ← get_manual rows ("Games")
  let invit_cost ← get_manual rows ("Invitations")
  pure (rf + rd + venue_cost + games_cost + invit_cost)

/-- `rem = total_limit - total_spent` (line 152). -/
def budget_rem (rf rd : ℚ) (rows : List BudgetRow) : Except PyErr ℚ := do
  let l ← total_limit rows
  let s ← total_spent rf rd rows
  pure (l - s)

instance {ε α : Type} [DecidableEq ε] [DecidableEq α] : DecidableEq (Except ε α) := fun a b =>
  match a, b with
  | .ok x, .ok y =>
    if h : x = y then .isTrue (by rw [h]) else .isFalse (by intro hc; cases hc; exact h rfl)
  | .error x, .error y =>
    if h : x = y then .isTrue (by rw [h]) else .isFalse (by intro hc; cases hc; exact h rfl)
  | .ok _, .error _ => .isFalse (by intro hc; cases hc)
  | .error _, .ok _ => .isFalse (by intro hc; cases hc)

/-- Outcome of the Budget page prologue. -/
inductive PageOutcome where
  | setupMessage
  | raised (e : PyErr)
  | renders (food decor : Except PyErr ℚ)
  deriving DecidableEq, Repr

/-- The Budget page prologue (lines 83-93): load `Food`, `Decor` and
`Budget_Config`; `st.error` + `st.stop` when `df_food is None or
df_budget is None` (the guard does not test `df_decor`); then compute the
linked costs.  When `df_decor` is `None`, line 93 evaluates
`df_decor.empty` on `None`, raising an uncaught `AttributeError`. -/
def budget_page (food decor budget : Sheet) : PageOutcome :=
  match load_data food [("Total")], load_data budget [("Category"), ("Limit"), ("Manual_Cost")] with
  | some df_food, some _ =>
    match load_data decor [("Cost")] with
    | some df_decor => .renders (real_food_cost df_food) (real_decor_cost df_decor)
    | none => .raised .attributeError
  | _, _ => .setupMessage

/-! ## Guests page (lines 158-179) -/

/-- A guest row restricted to the two columns the statistics block reads;
the other columns (`Family Name`, `Ages`, `Dietary`, `RSVP`) do not enter
any computation modelled here. -/
structure GuestRow where
  adults : Cell
  children : Cell
  deriving DecidableEq, Repr

/-- Python `int(x)` on a number: truncation toward zero. -/
def truncInt (q : ℚ) : ℤ :=
  if q < 0 then ⌈q⌉ else ⌊q⌋

/-- The body of the `try` block (lines 175-177): coerce the `Adults` and
`Children` columns with `pd.to_numeric(errors=coerce).fillna(0)`, sum
them, and display the three truncated integers
`(int(adults), int(kids), int(adults + kids))`. -/
def guests_stats (rows : List GuestRow) : Except PyErr (ℤ × ℤ × ℤ) :=
  let adults := sumCoerced (rows.map fun r => r.adults)
  let kids := sumCoerced (rows.map fun r => r.children)
  .ok (truncInt adults, truncInt kids, truncInt (adults + kids))

/-- `try: ... except: pass` — a successful result is displayed, any
raised exception is swallowed and nothing is shown to the user. -/
def exceptPass {α : Type} : Except PyErr α → Option α
  | .ok a => some a
  | .error _ => none

/-- What the statistics block displays: the stats on success, nothing on
any exception. -/
def guests_stats_display (rows : List GuestRow) : Option (ℤ × ℤ × ℤ) :=
  exceptPass (guests_stats rows)

/-! ## Food & Drinks page (lines 184-220) -/

/-- A food row restricted to the three columns the calculation reads and
writes; `Item`, `Owner` and `Sourcing` do not enter any computation. -/
structure FoodRow where
  quantity : Cell
  price : Cell
  total : Cell
  deriving DecidableEq, Repr

/-- One iteration of the `Calculate Totals` loop (lines 208-215):
coerce `Quantity` and `Price`; when both are `> 0` set `Total` to their
product, otherwise leave the row untouched.  (The coerced `Total` is also
computed in the source but never used.) -/
def auto_compute_total (r : FoodRow) : FoodRow :=
  let q := toNumericCoerce r.quantity
  let p := toNumericCoerce r.price
  if numPos q && numPos p then { r with total := .num (q.val * p.val) } else r

/-- The whole `Calculate Totals & Save` pass over the edited food table. -/
def calculate_totals (rows : List FoodRow) : List FoodRow :=
  rows.map auto_compute_total

/-- `total_food = pd.to_numeric(edited_food[Total], errors=coerce).sum()`
(line 219). -/
def total_food (rows : List FoodRow) : ℚ :=
  sumCoerced (rows.map fun r => r.total)

/-! ## Pizza boxes -/

/-- Modelled from the spec: no pizza-box computation appears in `src/`
(the spec describes several near-duplicate variants of the app, and this
function lives in a variant outside `src/`).  The spec defines it as
ceiling division `ceil(confirmedGuestCount * slicesPerPerson /
slicesPerBox)` with defaults 3 slices per person and 8 per box. -/
def pizzaBoxes (confirmedGuestCount : ℕ) (slicesPerPerson : ℕ := 3)
    (slicesPerBox : ℕ := 8) : ℕ :=
  (confirmedGuestCount * slicesPerPerson + slicesPerBox - 1) / slicesPerBox

/-! ## Helper lemmas -/

/-- Characterisation of the required-column backfill loop: it appends
some list `extra` of fresh column names (each required and not already
present), pads every row with that many nulls, and afterwards every
required column is present.  Existing columns and rows are untouched. -/
theorem foldl_addMissing_spec (req : List String) : ∀ t : Table, ∃ extra : List String,
    req.foldl addMissing t =
      ⟨t.cols ++ extra, t.rows.map fun r => r ++ List.replicate extra.length Cell.null⟩ ∧
    (∀ c ∈ extra, c ∈ req ∧ c ∉ t.cols) ∧ (∀ c ∈ req, c ∈ t.cols ++ extra) := by
  induction req with
  | nil =>
    intro t
    refine ⟨[], ?_, by simp, by simp⟩
    simp
  | cons c cs ih =>
    intro t
    by_cases hc : c ∈ t.cols
    · obtain ⟨extra, he, hmem, hcov⟩ := ih t
      refine ⟨extra, ?_, ?_, ?_⟩
      · simpa [List.foldl_cons, addMissing, hc] using he
      · exact fun x hx => ⟨List.mem_cons_of_mem _ (hmem x hx).1, (hmem x hx).2⟩
      · intro x hx
        rcases List.mem_cons.mp hx with h | h
        · exact h ▸ List.mem_append_left _ hc
        · exact hcov x h
    · obtain ⟨extra, he, hmem, hcov⟩ :=
        ih ⟨t.cols ++ [c], t.rows.map fun r => r ++ [Cell.null]⟩
      refine ⟨c :: extra, ?_, ?_, ?_⟩
      · rw [List.foldl_cons]
        rw [show addMissing t c = ⟨t.cols ++ [c], t.rows.map fun r => r ++ [Cell.null]⟩ from
          by simp [addMissing, hc]]
        rw [he]
        refine congrArg₂ Table.mk ?_ ?_
        · simp
        · rw [List.map_map]
          refine List.map_congr_left fun r _ => ?_
          simp [List.replicate_succ]
      · intro x hx
        rcases List.mem_cons.mp hx with h | h
        · subst h; exact ⟨List.mem_cons_self _ _, hc⟩
        · refine ⟨List.mem_cons_of_mem _ (hmem x h).1, fun hx2 => (hmem x h).2 ?_⟩
          exact List.mem_append_left _ hx2
      · intro x hx
        rcases List.mem_cons.mp hx with h | h
        · subst h; exact List.mem_append_right _ (List.mem_cons_self _ _)
        · have := hcov x h
          simpa [List.append_assoc] using this
  -- migration characterisation ends here

/-- When every required column is already present, the backfill loop is
the identity. -/
theorem foldl_addMissing_all_present (req : List String) :
    ∀ t : Table, (∀ c ∈ req, c ∈ t.cols) → req.foldl addMissing t = t := by
  induction req with
  | nil => intro t _; rfl
  | cons c cs ih =>
    intro t h
    rw [List.foldl_cons, show addMissing t c = t from
      by simp [addMissing, h c (List.mem_cons_self _ _)]]
    exact ih t fun x hx => h x (List.mem_cons_of_mem _ hx)

/-- A raw pandas sum succeeds exactly on columns free of non-numeric
cells, and then agrees with the coerced sum of the numeric values. -/
theorem pandasRawSum_eq_ok (cells : List Cell) (h : ∀ c ∈ cells, c ≠ Cell.nonnum) :
    pandasRawSum cells = .ok ((cells.map Cell.val).sum) := by
  induction cells with
  | nil => rfl
  | cons c cs ih =>
    have ihs := ih fun x hx => h x (List.mem_cons_of_mem _ hx)
    cases c with
    | num q => simp [pandasRawSum, ihs, Cell.val]
    | null => simp [pandasRawSum, ihs, Cell.val]
    | nonnum => exact absurd rfl (h _ (List.mem_cons_self _ _))

/-- A lookup over rows appended with a row of a different category is
unchanged: the appended row's `Manual_Cost` is never read. -/
theorem get_manual_append_not_cat (rows : List BudgetRow) (r : BudgetRow) (cat : String)
    (h : r.category ≠ cat) : get_manual (rows ++ [r]) cat = get_manual rows cat := by
  unfold get_manual
  have hb : (r.category == cat) = false := by simpa using h
  rw [List.find?_append, show List.find? (fun x => x.category == cat) [r] = none from
    by simp [List.find?, hb], Option.or_none]

/-! ## Claim theorems -/

/-- C3: the pizza-box computation is true ceiling division
`ceil(n * 3 / 8)` for every non-negative guest count, with
`pizzaBoxes 0 = 0`, `pizzaBoxes 1 = 1`, `pizzaBoxes 8 = 3` and
`pizzaBoxes 9 = 4`. -/
theorem pizzaBoxes_ceiling_spec (n : ℕ) :
    (pizzaBoxes n : ℤ) = ⌈((n * 3 : ℕ) : ℚ) / 8⌉ ∧
    pizzaBoxes 0 = 0 ∧ pizzaBoxes 1 = 1 ∧ pizzaBoxes 8 = 3 ∧ pizzaBoxes 9 = 4 := by
  refine ⟨?_, by decide, by decide, by decide, by decide⟩
  have h8 : (0:ℚ) < 8 := by norm_num
  have hpb : pizzaBoxes n = (n * 3 + 7) / 8 := by unfold pizzaBoxes; norm_num
  have h1 : n * 3 ≤ (n * 3 + 7) / 8 * 8 := by omega
  have h2 : (n * 3 + 7) / 8 * 8 < n * 3 + 8 := by omega
  rw [hpb, eq_comm, Int.ceil_eq_iff]
  constructor
  · rw [sub_lt_iff_lt_add, show ((n * 3 : ℕ) : ℚ) / 8 + 1 = ((n * 3 : ℕ) + 8) / 8 by ring,
      lt_div_iff₀ h8]
    exact_mod_cast h2
  · rw [div_le_iff₀ h8]
    exact_mod_cast h1

/-- C4: `load_data` returns `none` for an unreachable worksheet; an
empty worksheet yields an empty table whose schema is exactly the
required columns; a worksheet with rows keeps all its columns and rows
unchanged and gains exactly the missing required columns, null in every
row. -/
theorem load_data_spec (req : List String) (t : Table) :
    load_data .unreachable req = none ∧
    (t.rows = [] → load_data (.reachable t) req = some ⟨req, []⟩) ∧
    (t.rows ≠ [] → ∃ extra : List String,
      load_data (.reachable t) req =
        some ⟨t.cols ++ extra, t.rows.map fun r => r ++ List.replicate extra.length Cell.null⟩ ∧
      (∀ c ∈ extra, c ∈ req ∧ c ∉ t.cols) ∧ (∀ c ∈ req, c ∈ t.cols ++ extra)) := by
  refine ⟨rfl, ?_, ?_⟩
  · intro h; simp [load_data, h]
  · intro h
    obtain ⟨extra, he, hmem, hcov⟩ := foldl_addMissing_spec req t
    exact ⟨extra, by simp [load_data, h, he], hmem, hcov⟩

/-- C4 witness: a one-row table with column `A`, loaded with required
columns `A` and `B`, gains exactly the null-filled column `B`. -/
theorem load_data_spec_witness :
    (⟨[("A")], [[Cell.num 1]]⟩ : Table).rows ≠ [] ∧
    ∃ extra : List String,
      load_data (.reachable ⟨[("A")], [[Cell.num 1]]⟩) [("A"), ("B")] =
        some ⟨[("A")] ++ extra, [[Cell.num 1]].map fun r => r ++ List.replicate extra.length Cell.null⟩ ∧
      (∀ c ∈ extra, c ∈ [("A"), ("B")] ∧ c ∉ [("A")]) ∧
      (∀ c ∈ [("A"), ("B")], c ∈ [("A")] ++ extra) :=
  ⟨by decide, (load_data_spec [("A"), ("B")] ⟨[("A")], [[Cell.num 1]]⟩).2.2 (by decide)⟩

/-- C8 counterexample: for a reachable one-row worksheet with column `A`
alone, loading with required columns `A, B` and saving immediately
overwrites the worksheet with an extra null column — the content is
changed, so load-then-save with no edits is not always a no-op. -/
theorem load_save_counterexample :
    load_data (.reachable ⟨[("A")], [[Cell.num 1]]⟩) [("A"), ("B")] =
      some ⟨[("A"), ("B")], [[Cell.num 1, Cell.null]]⟩ ∧
    save_data ⟨[("A"), ("B")], [[Cell.num 1, Cell.null]]⟩ ≠
      .reachable ⟨[("A")], [[Cell.num 1]]⟩ := by
  constructor
  · rfl
  · decide

/-- C8 amended: for a reachable worksheet that has at least one row and
already contains every required column, `load_data` returns its content
unchanged, and saving it back writes exactly the original content — a
no-op round trip. -/
theorem load_save_noop (t : Table) (req : List String) (hr : t.rows ≠ [])
    (hc : ∀ c ∈ req, c ∈ t.cols) :
    load_data (.reachable t) req = some t ∧ save_data t = .reachable t := by
  refine ⟨?_, rfl⟩
  simp [load_data, hr, foldl_addMissing_all_present req t hc]

/-- C8 witness: the round trip is a no-op on a concrete one-row table
containing its required column. -/
theorem load_save_noop_witness :
    load_data (.reachable ⟨[("A")], [[Cell.num 2]]⟩) [("A")] =
      some ⟨[("A")], [[Cell.num 2]]⟩ ∧
    save_data ⟨[("A")], [[Cell.num 2]]⟩ = .reachable ⟨[("A")], [[Cell.num 2]]⟩ :=
  load_save_noop ⟨[("A")], [[Cell.num 2]]⟩ [("A")] (by decide) (by decide)

/-- C1 counterexample: on the Budget page a non-numeric cell in the
summed column is not coerced to zero — the raw pandas sum fails with a
`TypeError` that the page does not catch, while the coercing sum of the
same column is `1`. -/
theorem sum_coercion_budget_counterexample :
    real_food_cost ⟨[("Total")], [[Cell.num 1], [Cell.nonnum]]⟩ = .error .typeError ∧
    sumCoerced ((⟨[("Total")], [[Cell.num 1], [Cell.nonnum]]⟩ : Table).col ("Total")) = 1 := by
  constructor
  · rfl
  · have hcol : (⟨[("Total")], [[Cell.num 1], [Cell.nonnum]]⟩ : Table).col ("Total") =
        [Cell.num 1, Cell.nonnum] := rfl
    rw [hcol]
    norm_num [sumCoerced, toNumericCoerce, Cell.val]

/-- C1 amended: aggregations performed through `pd.to_numeric(errors=
coerce)` (Guests headcount, Food page total, Decor page total) treat
every non-numeric or missing cell as 0 and return 0 for an empty column,
and never fail; the Budget page's food and decor sums return 0 for an
empty table but are raw sums that only succeed — agreeing with the
coerced sum — when no non-numeric cell is present. -/
theorem sum_coercion_spec :
    sumCoerced [] = 0 ∧
    (∀ cells : List Cell, sumCoerced (Cell.nonnum :: cells) = sumCoerced cells ∧
      sumCoerced (Cell.null :: cells) = sumCoerced cells ∧
      ∀ q : ℚ, sumCoerced (Cell.num q :: cells) = q + sumCoerced cells) ∧
    (∀ rows : List FoodRow, total_food rows = sumCoerced (rows.map fun r => r.total)) ∧
    (∀ t : Table, t.rows = [] → real_food_cost t = .ok 0 ∧ real_decor_cost t = .ok 0) ∧
    (∀ cells : List Cell, (∀ x ∈ cells, x ≠ Cell.nonnum) →
      pandasRawSum cells = .ok ((cells.map Cell.val).sum)) := by
  refine ⟨rfl, ?_, fun rows => rfl, ?_, fun cells h => pandasRawSum_eq_ok cells h⟩
  · intro cells
    refine ⟨?_, ?_, fun q => ?_⟩ <;> simp [sumCoerced, toNumericCoerce, Cell.val]
  · intro t h
    constructor <;> simp [real_food_cost, real_decor_cost, h]

/-- C1 witness: the amended statement applied to a concrete empty table
and a concrete all-numeric column. -/
theorem sum_coercion_spec_witness :
    real_food_cost ⟨[("Total")], []⟩ = .ok 0 ∧
    pandasRawSum [Cell.num 2, Cell.null] = .ok (([Cell.num 2, Cell.null].map Cell.val).sum) :=
  ⟨(sum_coercion_spec.2.2.2.1 ⟨[("Total")], []⟩ rfl).1,
   sum_coercion_spec.2.2.2.2 [Cell.num 2, Cell.null] (by decide)⟩

/-- C2: the Budget page guard only tests the Food and Budget_Config
loads; with the Decor worksheet missing (and the other two present) the
page does not render the setup message — it proceeds to line 93 and
raises an uncaught `AttributeError` on `df_decor.empty`, contradicting
the page's own setup message, which asks for the Decor tab. -/
theorem budget_page_decor_guard_bug :
    budget_page (.reachable ⟨[("Total")], [[Cell.num 1]]⟩) .unreachable
        (.reachable ⟨[("Category"), ("Limit"), ("Manual_Cost")],
          [[Cell.num 0, Cell.num 0, Cell.num 0]]⟩) =
      .raised .attributeError ∧
    (PageOutcome.raised .attributeError ≠ .setupMessage) ∧
    budget_page .unreachable .unreachable .unreachable = .setupMessage := by
  exact ⟨rfl, by decide, rfl⟩

/-- C5: the auto-compute action sets a food row's `Total` to
`Quantity * Price` exactly when both coerce to positive numbers, and
otherwise leaves the row (including its `Total`) unchanged. -/
theorem auto_compute_total_spec (r : FoodRow) (q p : ℚ) :
    (toNumericCoerce r.quantity = .num q → toNumericCoerce r.price = .num p →
      0 < q → 0 < p → auto_compute_total r = { r with total := .num (q * p) }) ∧
    ((numPos (toNumericCoerce r.quantity) && numPos (toNumericCoerce r.price)) = false →
      auto_compute_total r = r) := by
  constructor
  · intro hq hp h0q h0p
    simp [auto_compute_total, hq, hp, numPos, Cell.val, h0q, h0p]
  · intro hfalse
    simp [auto_compute_total, hfalse]

/-- C5 witness: `{quantity: 2, price: 5, total: null}` becomes
`total = 10`, and `{quantity: 0, price: 5, total: 7}` keeps `total = 7`. -/
theorem auto_compute_total_spec_witness :
    auto_compute_total ⟨Cell.num 2, Cell.num 5, Cell.null⟩ =
      ⟨Cell.num 2, Cell.num 5, Cell.num 10⟩ ∧
    auto_compute_total ⟨Cell.num 0, Cell.num 5, Cell.num 7⟩ =
      ⟨Cell.num 0, Cell.num 5, Cell.num 7⟩ := by
  constructor
  · have h := (auto_compute_total_spec ⟨Cell.num 2, Cell.num 5, Cell.null⟩ 2 5).1
      rfl rfl (by norm_num) (by norm_num)
    have h10 : (2 * 5 : ℚ) = 10 := by norm_num
    rw [h10] at h
    exact h
  · exact (auto_compute_total_spec ⟨Cell.num 0, Cell.num 5, Cell.num 7⟩ 0 0).2 (by decide)

/-- C6: the Budget page category lookups return the field of the first
row whose `Category` equals the given string exactly (so duplicates
resolve deterministically to the first row, and rows after the first
match are ignored), and return 0.0 when no row matches. -/
theorem category_lookup_spec (cat : String) :
    (∀ rows : List BudgetRow, (∀ r ∈ rows, r.category ≠ cat) →
      get_limit rows cat = .ok 0 ∧ get_manual rows cat = .ok 0) ∧
    (∀ (pre post : List BudgetRow) (r : BudgetRow),
      (∀ r₀ ∈ pre, r₀.category ≠ cat) → r.category = cat →
      get_limit (pre ++ r :: post) cat = cellFloat r.limit ∧
      get_manual (pre ++ r :: post) cat = cellFloat r.manualCost) := by
  constructor
  · intro rows h
    have hnone : List.find? (fun x => x.category == cat) rows = none := by
      rw [List.find?_eq_none]
      intro x hx
      simpa using h x hx
    constructor <;> simp [get_limit, get_manual, hnone]
  · intro pre post r hpre hr
    have hnone : List.find? (fun x => x.category == cat) pre = none := by
      rw [List.find?_eq_none]
      intro x hx
      simpa using hpre x hx
    have hcons : List.find? (fun x => x.category == cat) (r :: post) = some r :=
      List.find?_cons_of_pos _ (by simpa using hr)
    constructor <;> simp [get_limit, get_manual, List.find?_append, hnone, hcons]

/-- C6 witness: with rows `Games, Venue(limit 5, manual 7),
Venue(limit 9, manual 11)` the lookup for `Venue` returns the first
match (5 resp. 7), and with no matching row it returns 0. -/
theorem category_lookup_spec_witness :
    get_limit [⟨("Games"), Cell.num 1, Cell.num 2⟩, ⟨("Venue"), Cell.num 5, Cell.num 7⟩,
        ⟨("Venue"), Cell.num 9, Cell.num 11⟩] ("Venue") = .ok 5 ∧
    get_manual [⟨("Games"), Cell.num 1, Cell.num 2⟩, ⟨("Venue"), Cell.num 5, Cell.num 7⟩,
        ⟨("Venue"), Cell.num 9, Cell.num 11⟩] ("Venue") = .ok 7 ∧
    get_limit [⟨("venue"), Cell.num 1, Cell.num 2⟩] ("Venue") = .ok 0 := by
  have h := (category_lookup_spec ("Venue")).2 [⟨("Games"), Cell.num 1, Cell.num 2⟩]
    [⟨("Venue"), Cell.num 9, Cell.num 11⟩] ⟨("Venue"), Cell.num 5, Cell.num 7⟩
    (by decide) rfl
  have h0 := ((category_lookup_spec ("Venue")).1 [⟨("venue"), Cell.num 1, Cell.num 2⟩]
    (by decide)).1
  exact ⟨h.1, h.2, h0⟩

/-- C7 counterexample: the progress ratio is not always in `[0, 1]` —
for a negative current value it is negative. -/
theorem progress_ratio_counterexample :
    show_bar_ratio (-50) 100 = -(1 / 2) ∧ ¬ (0 ≤ show_bar_ratio (-50) 100) := by
  constructor <;> norm_num [show_bar_ratio, min_def]

/-- C7 amended: the ratio equals `min(current / limit, 1)` when
`limit > 0` and `0` otherwise; it is always at most 1, and lies in
`[0, 1]` whenever `current ≥ 0`; moreover `show_bar_ratio 50 0 = 0` and
`show_bar_ratio 150 100 = 1`. -/
theorem progress_ratio_spec (current limit : ℚ) :
    (0 < limit → show_bar_ratio current limit = min (current / limit) 1) ∧
    (¬ 0 < limit → show_bar_ratio current limit = 0) ∧
    show_bar_ratio current limit ≤ 1 ∧
    (0 ≤ current → 0 ≤ show_bar_ratio current limit) ∧
    show_bar_ratio 50 0 = 0 ∧ show_bar_ratio 150 100 = 1 := by
  refine ⟨fun h => by simp [show_bar_ratio, h], fun h => by simp [show_bar_ratio, h],
    ?_, ?_, by norm_num [show_bar_ratio], by norm_num [show_bar_ratio, min_def]⟩
  · unfold show_bar_ratio
    split
    · exact min_le_right _ _
    · norm_num
  · intro hc
    unfold show_bar_ratio
    split
    · exact le_min (div_nonneg hc (by linarith)) (by norm_num)
    · exact le_refl 0

/-- C7 witness: the amended statement applied at `current = 150`,
`limit = 100`. -/
theorem progress_ratio_spec_witness :
    0 ≤ show_bar_ratio 150 100 ∧ show_bar_ratio 150 100 = 1 :=
  ⟨(progress_ratio_spec 150 100).2.2.2.1 (by norm_num),
   (progress_ratio_spec 150 100).2.2.2.2.2⟩

/-- C9: `total_limit` sums the `Limit` of every row of the edited budget
table (user-added categories included); `total_spent` is the linked food
and decor costs plus the `Manual_Cost` of exactly the first-match rows
of the fixed categories `Venue`, `Games` and `Invitations` — the
`Manual_Cost` of any other category row never enters `total_spent` even
though its `Limit` counts — and the displayed remaining budget is
`total_limit - total_spent`. -/
theorem budget_totals_spec (rf rd : ℚ) (rows : List BudgetRow)
    (hlim : ∀ r ∈ rows, r.limit ≠ Cell.nonnum) :
    total_limit rows = .ok ((rows.map fun r => r.limit.val).sum) ∧
    (∀ v g i : ℚ, get_manual rows ("Venue") = .ok v → get_manual rows ("Games") = .ok g →
      get_manual rows ("Invitations") = .ok i →
      total_spent rf rd rows = .ok (rf + rd + v + g + i) ∧
      budget_rem rf rd rows =
        .ok ((rows.map fun r => r.limit.val).sum - (rf + rd + v + g + i))) ∧
    (∀ (r : BudgetRow) (c : Cell), r.category ≠ ("Venue") → r.category ≠ ("Games") →
      r.category ≠ ("Invitations") →
      total_spent rf rd (rows ++ [{ r with manualCost := c }]) =
        total_spent rf rd (rows ++ [r])) := by
  have hsum : total_limit rows = .ok ((rows.map fun r => r.limit.val).sum) := by
    have h : ∀ x ∈ rows.map (fun r => r.limit), x ≠ Cell.nonnum := by
      intro x hx
      obtain ⟨r, hr, rfl⟩ := List.mem_map.mp hx
      exact hlim r hr
    rw [total_limit, pandasRawSum_eq_ok _ h, List.map_map]
    rfl
  refine ⟨hsum, ?_, ?_⟩
  · intro v g i hv hg hi
    have hspent : total_spent rf rd rows = .ok (rf + rd + v + g + i) := by
      unfold total_spent
      rw [hv, hg, hi]
      rfl
    refine ⟨hspent, ?_⟩
    unfold budget_rem
    rw [hsum, hspent]
    rfl
  · intro r c h1 h2 h3
    unfold total_spent
    rw [get_manual_append_not_cat rows { r with manualCost := c } ("Venue") h1,
      get_manual_append_not_cat rows { r with manualCost := c } ("Games") h2,
      get_manual_append_not_cat rows { r with manualCost := c } ("Invitations") h3,
      get_manual_append_not_cat rows r ("Venue") h1,
      get_manual_append_not_cat rows r ("Games") h2,
      get_manual_append_not_cat rows r ("Invitations") h3]

/-- C9 witness: on a concrete budget table with an extra `Other` row,
the limit total counts all four rows (660), the spent total counts only
the three fixed manual costs on top of the linked costs (355), and the
remaining budget is their difference (305) — `Other`'s manual cost 3 is
excluded. -/
theorem budget_totals_spec_witness :
    total_limit [⟨("Venue"), Cell.num 500, Cell.num 100⟩, ⟨("Games"), Cell.num 100, Cell.num 20⟩,
        ⟨("Invitations"), Cell.num 50, Cell.num 5⟩, ⟨("Other"), Cell.num 10, Cell.num 3⟩] =
      .ok 660 ∧
    total_spent 200 30 [⟨("Venue"), Cell.num 500, Cell.num 100⟩,
        ⟨("Games"), Cell.num 100, Cell.num 20⟩, ⟨("Invitations"), Cell.num 50, Cell.num 5⟩,
        ⟨("Other"), Cell.num 10, Cell.num 3⟩] = .ok 355 ∧
    budget_rem 200 30 [⟨("Venue"), Cell.num 500, Cell.num 100⟩,
        ⟨("Games"), Cell.num 100, Cell.num 20⟩, ⟨("Invitations"), Cell.num 50, Cell.num 5⟩,
        ⟨("Other"), Cell.num 10, Cell.num 3⟩] = .ok 305 := by
  have h := budget_totals_spec 200 30
    [⟨("Venue"), Cell.num 500, Cell.num 100⟩, ⟨("Games"), Cell.num 100, Cell.num 20⟩,
     ⟨("Invitations"), Cell.num 50, Cell.num 5⟩, ⟨("Other"), Cell.num 10, Cell.num 3⟩]
    (by decide)
  have h2 := h.2.1 100 20 5 rfl rfl rfl
  refine ⟨?_, ?_, ?_⟩
  · rw [h.1]
    norm_num [Cell.val]
  · rw [h2.1]
    norm_num
  · rw [h2.2]
    norm_num [Cell.val]

/-- C10: when the headcount block succeeds it displays the coerced sums
of the `Adults` and `Children` columns truncated to integers (non-numeric
and missing cells counting as 0, as the leading-row equation shows), and
any exception inside the block is swallowed by the bare `except: pass` —
nothing is displayed and no error reaches the user. -/
theorem guests_stats_spec (rows : List GuestRow) :
    guests_stats_display rows =
      some (truncInt (sumCoerced (rows.map fun x => x.adults)),
            truncInt (sumCoerced (rows.map fun x => x.children)),
            truncInt (sumCoerced (rows.map fun x => x.adults) +
              sumCoerced (rows.map fun x => x.children))) ∧
    guests_stats_display (⟨Cell.nonnum, Cell.null⟩ :: rows) =
      guests_stats_display (⟨Cell.num 0, Cell.num 0⟩ :: rows) ∧
    (∀ e : PyErr, exceptPass (Except.error e : Except PyErr (ℤ × ℤ × ℤ)) = none) := by
  refine ⟨rfl, ?_, fun e => rfl⟩
  simp [guests_stats_display, guests_stats, exceptPass, sumCoerced, toNumericCoerce, Cell.val]

end EventPlanner
